import Mathlib

set_option maxRecDepth 16384

/-!
A shallow embedding of `src/lib/Resource.js` (the `Resource` class of
`@ui5/fs`) and proofs about its content-lifecycle state machine.

Modelling conventions:
* A Node.js `Buffer` is a `List Nat` of byte values.
* A readable stream is modelled by the net observable behaviour it has for
  this class: the list of `data` chunks it will emit, followed either by an
  `end` event (`ok = true`) or an `error` event carrying a message
  (`ok = false`).  A `createStream` factory is modelled by the stream value
  each invocation produces (every invocation yields a fresh, independently
  consumable copy).
* JavaScript promises are modelled by `BufPromise`: a promise identity
  (a `Nat`, drawn from the model-bookkeeping counter `nextId`) together
  with its current state.  Only the pending and rejected states are ever
  stored in `_buffering` by the source code; a fulfilled promise is always
  removed from the field by the `end` handler before it resolves.
* The single-threaded event loop is modelled by an explicit `settle` step
  that delivers the `data`/`error`/`end` events registered by
  `_getBufferFromStream`; an `await` of the returned promise is the
  composite `awaitPromise` (attach, then run the event loop, then read the
  resolution).
* The experimental `source` handle is an external object shared by
  reference (e.g. between a resource and its clones).  The model threads
  the state of this single shared object explicitly as a `SourceState`
  value next to each operation that can read or write it.
* Methods that `throw` (or return a rejected promise) are modelled with
  `Except String`, carrying the exact message text built by the source.
-/

deriving instance DecidableEq for Except

/-- A byte buffer (Node.js `Buffer`), as a list of byte values. -/
abbrev Buffer := List Nat

/-- Observable behaviour of a Node.js readable stream for this class:
the `data` chunks it emits, then `end` (`ok = true`) or `error` with
message `err` (`ok = false`). -/
structure JStream where
  chunks : List Buffer
  ok : Bool
  err : String := ""
deriving DecidableEq, Repr

/-- The state of the promise stored in `this._buffering`
(src/lib/Resource.js lines 409-437).  `id` is the promise identity. -/
inductive BufPromise where
  | pending (id : Nat) (cs : JStream)
  | rejected (id : Nat) (err : String)
deriving DecidableEq, Repr

/-- The external, shared `source` handle (experimental internal parameter).
Only its `modified` flag is read or written by `Resource`. -/
structure SourceState where
  modified : Bool
deriving DecidableEq, Repr

/-- An external `@ui5/project` project object.  It is opaque to this
repository: only `getName()` and its JavaScript string coercion are used.
`jsStringRep` models what `${project}` interpolates to in a template
literal; for an object without a custom `toString` this is
`"[object Object]"`. -/
structure Project where
  name : String
  jsStringRep : String := "[object Object]"
deriving DecidableEq, Repr

/-- `Project#getName()`. -/
def Project.getName (p : Project) : String := p.name

/-- The stat-info record (src/lib/Resource.js lines 65-81).  Kept opaque:
the class only stores it, defaults it, deep-clones it and hands it out.
The structured `Date` values mirror the `...Ms` numeric fields and are not
modelled separately. -/
structure StatInfo where
  isFile : Bool := true
  isDirectory : Bool := false
  isBlockDevice : Bool := false
  isCharacterDevice : Bool := false
  isSymbolicLink : Bool := false
  isFIFO : Bool := false
  isSocket : Bool := false
  atimeMs : Nat := 0
  mtimeMs : Nat := 0
  ctimeMs : Nat := 0
  birthtimeMs : Nat := 0
deriving DecidableEq, Repr

/-- The default stat info built by the constructor when none is supplied;
all timestamps are `new Date().getTime()` at construction time, modelled
by the single `now` parameter. -/
def defaultStatInfo (now : Nat) : StatInfo :=
  { atimeMs := now, mtimeMs := now, ctimeMs := now, birthtimeMs := now }

/-- UTF-8 encoding of one character (byte values). -/
def utf8EncodeCharNat (c : Char) : List Nat :=
  let n := c.toNat
  if n < 128 then [n]
  else if n < 2048 then [192 ||| (n >>> 6), 128 ||| (n &&& 63)]
  else if n < 65536 then [224 ||| (n >>> 12), 128 ||| ((n >>> 6) &&& 63), 128 ||| (n &&& 63)]
  else [240 ||| (n >>> 18), 128 ||| ((n >>> 12) &&& 63), 128 ||| ((n >>> 6) &&& 63),
    128 ||| (n &&& 63)]

/-- `Buffer.from(string, "utf8")`: the UTF-8 bytes of a string. -/
def utf8Bytes (s : String) : List Nat :=
  (s.data.map utf8EncodeCharNat).flatten

/-- `buffer.toString()`: UTF-8 decoding.  Decoding of byte sequences that
are not valid UTF-8 (where Node would insert replacement characters) is
not modelled precisely and yields `""`; no claim depends on it. -/
def bufToString (b : Buffer) : String :=
  (String.fromUTF8? (ByteArray.mk ((b.map (fun n => UInt8.ofNat n)).toArray))).getD ""

/-- `path.posix.basename` from `node:path` (external library), for the
virtual paths this class handles: the last non-empty `/`-separated
segment, or `""` when there is none. -/
def posixBasename (p : String) : String :=
  String.mk (((p.data.splitOn '/').filter (fun l => l ≠ [])).getLast?.getD [])

/-- The `Resource` instance state.  Field names follow the source
(`this._path`, `this.__project`, ...).  `hasSource` records whether the
shared `source` handle is attached (`this._source`); the handle's own
state is the separately threaded `SourceState`.  `nextId` is model
bookkeeping: the supply of fresh promise identities. -/
structure Resource where
  _path : String
  _name : String
  hasSource : Bool := false
  __project : Option Project := none
  _statInfo : StatInfo := {}
  _buffer : Option Buffer := none
  _stream : Option JStream := none
  _createStream : Option JStream := none
  _contentDrained : Bool := false
  _streamDrained : Bool := false
  _buffering : Option BufPromise := none
  nextId : Nat := 0
  _collections : List String := []
deriving DecidableEq, Repr

/-- Error message of src/lib/Resource.js lines 109-111 (and the identical
texts at lines 150-152 and 180-182). -/
def drainedMessage (p : String) : String :=
  "Content of Resource " ++ p ++ " has been drained. " ++
    "This might be caused by requesting resource content after a content stream has been " ++
    "requested and no new content (e.g. a new stream) has been set."

/-- Error message of src/lib/Resource.js line 118 (and line 193). -/
def noContentMessage (p : String) : String :=
  "Resource " ++ p ++ " has no content"

/-- Error message of src/lib/Resource.js line 394. -/
def streamDrainedMessage (p : String) : String :=
  "Content stream of Resource " ++ p ++ " is flagged as drained."

/-- Error message of src/lib/Resource.js line 47. -/
def pathMissingMessage : String :=
  "Cannot create Resource: path parameter missing"

/-- Error message of src/lib/Resource.js lines 51-52. -/
def conflictMessage : String :=
  "Cannot create Resource: Please set only one content parameter. " ++
    "Buffer, string, stream or createStream"

/-- Error message of src/lib/Resource.js lines 349-350.  Note that the
source interpolates `${project.getName()}` for the attempted project but
`${this.__project}` — the raw object — for the existing one. -/
def projectAssignedMessage (newName p existingRep : String) : String :=
  "Unable to assign project " ++ newName ++ " to resource " ++ p ++ ": " ++
    "Resource is already associated to project " ++ existingRep

/-- Stands in for the `TypeError` Node raises when `_getStream` returns
`null` and `.on` is called on it; unreachable through the public API,
which only calls `_getStream` when a stream or factory is present. -/
def nullStreamMessage : String :=
  "TypeError: stream is null"

/-- Constructor parameter object (src/lib/Resource.js line 45).
`source : Bool` records whether the shared source handle is passed.
`now` models `new Date().getTime()` for the default stat info. -/
structure Params where
  path : Option String := none
  statInfo : Option StatInfo := none
  buffer : Option Buffer := none
  string : Option String := none
  createStream : Option JStream := none
  stream : Option JStream := none
  project : Option Project := none
  source : Bool := false
  now : Nat := 0
deriving DecidableEq, Repr

/-- JavaScript truthiness of the `string` parameter: an empty string is
falsy, so it does not count in the constructor's conflict check. -/
def jsTruthyString : Option String → Bool
  | some s => !(s == "")
  | none => false

/-- `setBuffer` (src/lib/Resource.js lines 128-140): flips the shared
source's `modified` flag to true if attached, clears the stream and
factory fields, installs the buffer and resets both drain flags.
It does not touch `_buffering`. -/
def Resource.setBuffer (r : Resource) (src : SourceState) (buffer : Buffer) :
    Resource × SourceState :=
  let src1 := if r.hasSource && !src.modified then { src with modified := true } else src
  ({ r with
      _createStream := none,
      _stream := none,
      _buffer := some buffer,
      _contentDrained := false,
      _streamDrained := false }, src1)

/-- `setString` (src/lib/Resource.js lines 163-165): delegates to
`setBuffer` with the UTF-8 encoding. -/
def Resource.setString (r : Resource) (src : SourceState) (s : String) :
    Resource × SourceState :=
  r.setBuffer src (utf8Bytes s)

/-- Argument of `setStream`: either a readable stream or a factory
callback (`typeof stream === "function"`). -/
inductive StreamArg where
  | stream (s : JStream)
  | factory (f : JStream)
deriving DecidableEq, Repr

/-- `setStream` (src/lib/Resource.js lines 214-231).  Like `setBuffer` it
does not touch `_buffering`. -/
def Resource.setStream (r : Resource) (src : SourceState) (arg : StreamArg) :
    Resource × SourceState :=
  let src1 := if r.hasSource && !src.modified then { src with modified := true } else src
  let r1 := { r with _buffer := none }
  match arg with
  | .factory f =>
    ({ r1 with
        _createStream := some f,
        _stream := none,
        _contentDrained := false,
        _streamDrained := false }, src1)
  | .stream s =>
    ({ r1 with
        _stream := some s,
        _createStream := none,
        _contentDrained := false,
        _streamDrained := false }, src1)

/-- `_getStream` (src/lib/Resource.js lines 392-401): throws when the
stream is flagged drained; a factory yields a fresh stream without
setting the flag; a plain stream sets `_streamDrained` and is handed out.
The `none/none` case models the `TypeError` Node would raise downstream;
it is unreachable through the public API. -/
def Resource._getStream (r : Resource) : Except String (JStream × Resource) :=
  if r._streamDrained then
    .error (streamDrainedMessage r._path)
  else match r._createStream with
  | some f => .ok (f, r)
  | none =>
    match r._stream with
    | some s => .ok (s, { r with _streamDrained := true })
    | none => .error nullStreamMessage

/-- `_getBufferFromStream` (src/lib/Resource.js lines 409-437), the
synchronous part: return the stored in-flight promise if there is one,
otherwise create a fresh promise whose executor pulls the stream and
registers the `data`/`error`/`end` handlers.  If the executor throws
(drained stream), the fresh promise is created rejected — and, exactly as
in the source, still stored in `_buffering`. -/
def Resource._getBufferFromStream (r : Resource) : Resource × BufPromise :=
  match r._buffering with
  | some p => (r, p)
  | none =>
    match r._getStream with
    | .error e =>
      let p := BufPromise.rejected r.nextId e
      ({ r with _buffering := some p, nextId := r.nextId + 1 }, p)
    | .ok (cs, r1) =>
      let p := BufPromise.pending r.nextId cs
      ({ r1 with _buffering := some p, nextId := r.nextId + 1 }, p)

/-- The event loop delivering the handlers registered by
`_getBufferFromStream` (src/lib/Resource.js lines 416-435) for the
pending drain, if any.  On `end`: concatenate the chunks, snapshot
`source.modified`, call `setBuffer`, restore the snapshot, clear
`_buffering` and resolve.  On `error`: reject — the locally collected
chunks are discarded, no buffer is installed, and `_buffering` keeps
(now rejected) the promise.  Returns the new resource and source states
and the delivered resolution `(promise id, result)`. -/
def Resource.settle (r : Resource) (src : SourceState) :
    Resource × SourceState × Option (Nat × Except String Buffer) :=
  match r._buffering with
  | some (.pending id cs) =>
    if cs.ok then
      let buffer := cs.chunks.flatten
      let snapshot := src.modified
      let (r1, src1) := r.setBuffer src buffer
      let src2 := if r.hasSource then { src1 with modified := snapshot } else src1
      ({ r1 with _buffering := none }, src2, some (id, .ok buffer))
    else
      ({ r with _buffering := some (.rejected id cs.err) }, src, some (id, .error cs.err))
  | _ => (r, src, none)

/-- Result of the synchronous part of `getBuffer`: either a promise that
is already fulfilled with a buffer, or the `_buffering` promise. -/
inductive GetBufRes where
  | resolved (b : Buffer)
  | viaPromise (p : BufPromise)
deriving DecidableEq, Repr

/-- `getBuffer` (src/lib/Resource.js lines 107-120): drained check first,
then the held buffer, then stream materialization, else "no content". -/
def Resource.getBuffer (r : Resource) : Except String (GetBufRes × Resource) :=
  if r._contentDrained then
    .error (drainedMessage r._path)
  else match r._buffer with
  | some b => .ok (.resolved b, r)
  | none =>
    if r._createStream.isSome || r._stream.isSome then
      let (r1, p) := r._getBufferFromStream
      .ok (.viaPromise p, r1)
    else
      .error (noContentMessage r._path)

/-- Result of `getString`: the eventual string is the UTF-8 decoding of
the buffer the underlying promise resolves with. -/
inductive GetStrRes where
  | resolved (s : String)
  | viaPromise (p : BufPromise)
deriving DecidableEq, Repr

/-- `getString` (src/lib/Resource.js lines 148-155): eager drained check
(surfaced as a rejected promise), then `getBuffer().then(b => b.toString())`. -/
def Resource.getString (r : Resource) : Except String (GetStrRes × Resource) :=
  if r._contentDrained then
    .error (drainedMessage r._path)
  else match r.getBuffer with
  | .error e => .error e
  | .ok (.resolved b, r1) => .ok (.resolved (bufToString b), r1)
  | .ok (.viaPromise p, r1) => .ok (.viaPromise p, r1)

/-- `getStream` (src/lib/Resource.js lines 178-205): drained check; a held
buffer is wrapped in a fresh pass-through stream (one chunk, then end);
otherwise the underlying stream is pulled via `_getStream`; on success the
resource is always flagged content-drained. -/
def Resource.getStream (r : Resource) : Except String (JStream × Resource) :=
  if r._contentDrained then
    .error (drainedMessage r._path)
  else match r._buffer with
  | some b => .ok ({ chunks := [b], ok := true }, { r with _contentDrained := true })
  | none =>
    if r._createStream.isSome || r._stream.isSome then
      match r._getStream with
      | .error e => .error e
      | .ok (cs, r1) => .ok (cs, { r1 with _contentDrained := true })
    else
      .error (noContentMessage r._path)

/-- Awaiting a promise returned by `_getBufferFromStream` under the
single-threaded event loop: a rejected promise rejects the awaiter; a
pending one is settled by running the event loop (`settle`), and the
awaiter receives its resolution.  The final `none` arm is unreachable at
every call site (a pending promise is always stored in `_buffering`). -/
def Resource.awaitPromise (r : Resource) (src : SourceState) (p : BufPromise) :
    Except String (Buffer × Resource × SourceState) :=
  match p with
  | .rejected _ e => .error e
  | .pending _ _ =>
    match r.settle src with
    | (r2, src2, some (_, .ok b)) => .ok (b, r2, src2)
    | (_, _, some (_, .error e)) => .error e
    | (_, _, none) => .error nullStreamMessage

/-- `await resource.getBuffer()`: the synchronous part of `getBuffer`
followed by awaiting its promise. -/
def Resource.awaitGetBuffer (r : Resource) (src : SourceState) :
    Except String (Buffer × Resource × SourceState) :=
  match r.getBuffer with
  | .error e => .error e
  | .ok (.resolved b, r1) => .ok (b, r1, src)
  | .ok (.viaPromise p, r1) => r1.awaitPromise src p

/-- `getSize` (src/lib/Resource.js lines 284-291): 0 when no content
source is held (checked before any drained check), else the byte length
of `await this.getBuffer()`. -/
def Resource.getSize (r : Resource) (src : SourceState) :
    Except String (Nat × Resource × SourceState) :=
  if r._buffer.isNone && r._createStream.isNone && r._stream.isNone then
    .ok (0, r, src)
  else match r.awaitGetBuffer src with
  | .error e => .error e
  | .ok (b, r1, src1) => .ok (b.length, r1, src1)

/-- The constructor (src/lib/Resource.js lines 45-95).  Path check, then
the truthiness-based conflict check (an empty `string` is falsy there),
then field initialization — with `source.modified` set to false when the
handle is attached — then the content dispatch in source order:
`createStream`, `stream`, `buffer` (truthy), `string` (any string). -/
def construct (p : Params) (src : SourceState) : Except String (Resource × SourceState) :=
  match p.path with
  | none => .error pathMissingMessage
  | some path =>
    if path = "" then .error pathMissingMessage
    else
      let tBuf := p.buffer.isSome
      let tStr := jsTruthyString p.string
      let tCS := p.createStream.isSome
      let tStream := p.stream.isSome
      if tBuf && tCS || tBuf && tStr || tStr && tCS || tBuf && tStream ||
          tStr && tStream || tCS && tStream then
        .error conflictMessage
      else
        let src1 := if p.source then { src with modified := false } else src
        let r0 : Resource := {
          _path := path
          _name := posixBasename path
          hasSource := p.source
          __project := p.project
          _statInfo := p.statInfo.getD (defaultStatInfo p.now) }
        match p.createStream with
        | some f => .ok ({ r0 with _createStream := some f }, src1)
        | none =>
          match p.stream with
          | some s => .ok ({ r0 with _stream := some s }, src1)
          | none =>
            match p.buffer with
            | some b => .ok (r0.setBuffer src1 b)
            | none =>
              match p.string with
              | some s => .ok (r0.setString src1 s)
              | none => .ok (r0, src1)

/-- `_getCloneOptions` (src/lib/Resource.js lines 313-329): same path, a
deep clone of the stat info (the identity on the pure model values), the
same shared source handle; a live stream is materialized into a buffer
(via `await this._getBufferFromStream()` — no drained check), a factory
or a buffer is passed by reference.  Returns the options together with
the possibly mutated original resource and source states. -/
def Resource._getCloneOptions (r : Resource) (src : SourceState) :
    Except String (Params × Resource × SourceState) :=
  let base : Params := { path := some r._path, statInfo := some r._statInfo, source := r.hasSource }
  if r._stream.isSome then
    let (r1, p) := r._getBufferFromStream
    match r1.awaitPromise src p with
    | .error e => .error e
    | .ok (b, r2, src2) => .ok ({ base with buffer := some b }, r2, src2)
  else match r._createStream with
  | some f => .ok ({ base with createStream := some f }, r, src)
  | none =>
    match r._buffer with
    | some b => .ok ({ base with buffer := some b }, r, src)
    | none => .ok (base, r, src)

/-- `clone` (src/lib/Resource.js lines 308-311): build the clone options
and construct a new resource from them.  Returns
`(clone, original afterwards, source state afterwards)`. -/
def Resource.clone (r : Resource) (src : SourceState) :
    Except String (Resource × Resource × SourceState) :=
  match r._getCloneOptions src with
  | .error e => .error e
  | .ok (opts, r1, src1) =>
    match construct opts src1 with
    | .error e => .error e
    | .ok (c, src2) => .ok (c, r1, src2)

/-- `getPath` (src/lib/Resource.js lines 239-241). -/
def Resource.getPath (r : Resource) : String := r._path

/-- `setPath` (src/lib/Resource.js lines 249-252). -/
def Resource.setPath (r : Resource) (path : String) : Resource :=
  { r with _path := path, _name := posixBasename path }

/-- `getName` (src/lib/Resource.js lines 260-262). -/
def Resource.getName (r : Resource) : String := r._name

/-- `getStatInfo` (src/lib/Resource.js lines 274-276). -/
def Resource.getStatInfo (r : Resource) : StatInfo := r._statInfo

/-- `pushCollection` (src/lib/Resource.js lines 298-300). -/
def Resource.pushCollection (r : Resource) (name : String) : Resource :=
  { r with _collections := r._collections ++ [name] }

/-- `getProject` (src/lib/Resource.js lines 337-339). -/
def Resource.getProject (r : Resource) : Option Project := r.__project

/-- `setProject` (src/lib/Resource.js lines 347-353): fails when a project
is already attached; the message interpolates the attempted project's
`getName()` but the existing project object itself. -/
def Resource.setProject (r : Resource) (project : Project) : Except String Resource :=
  match r.__project with
  | some existing =>
    .error (projectAssignedMessage project.getName r._path existing.jsStringRep)
  | none => .ok { r with __project := some project }

/-- `hasProject` (src/lib/Resource.js lines 361-363). -/
def Resource.hasProject (r : Resource) : Bool := r.__project.isSome

/-- Does the character list contain `needle` as a contiguous sublist? -/
def containsSub (needle : List Char) : List Char → Bool
  | [] => needle.isEmpty
  | c :: cs => needle.isPrefixOf (c :: cs) || containsSub needle cs

/-- Does `hay` contain `needle` as a substring? -/
def strContainsSub (hay needle : String) : Bool :=
  containsSub needle.data hay.data

/-- Number of content parameters that are truthy in the constructor's
conflict check (an empty `string` is falsy in JavaScript). -/
def truthyContentCount (p : Params) : Nat :=
  (if p.buffer.isSome then 1 else 0) + (if jsTruthyString p.string then 1 else 0) +
    (if p.createStream.isSome then 1 else 0) + (if p.stream.isSome then 1 else 0)

/-- The resource state after `_getBufferFromStream` has attached a pending
drain to a (plain-)stream-backed resource: the underlying stream has been
pulled (`_streamDrained`), the pending promise is stored, the fresh
promise identity is consumed. -/
def attachedPending (r : Resource) (cs : JStream) : Resource :=
  { r with
    _streamDrained := true
    _buffering := some (.pending r.nextId cs)
    nextId := r.nextId + 1 }

/-- The resource state after a stream-backed read has fully materialized:
the concatenated chunks are installed as the buffer, stream and factory
are cleared, both drain flags reset, the drain token removed. -/
def materialized (r : Resource) (cs : JStream) : Resource :=
  { r with
    _buffer := some cs.chunks.flatten
    _stream := none
    _createStream := none
    _contentDrained := false
    _streamDrained := false
    _buffering := none
    nextId := r.nextId + 1 }

/-- The resource state after a stream-backed drain failed: identical to
`attachedPending` except that the stored promise is now rejected.  In
particular `_buffering` is NOT cleared. -/
def rejectedStuck (r : Resource) (cs : JStream) : Resource :=
  { r with
    _streamDrained := true
    _buffering := some (.rejected r.nextId cs.err)
    nextId := r.nextId + 1 }

/-- The resource `clone()` builds from an original `r` whose content
materializes to (or already is) the buffer `buf`: same path and stat
info, shared source handle, fresh everything else. -/
def cloneOf (r : Resource) (buf : Buffer) : Resource :=
  { _path := r._path
    _name := posixBasename r._path
    hasSource := r.hasSource
    _statInfo := r._statInfo
    _buffer := some buf }

/-- Construct a resource and perform its first `await getBuffer()`,
returning the bytes it resolves with (`none` when construction or the
read fails). -/
def constructThenAwaitBuffer (p : Params) (src : SourceState) : Option Buffer :=
  match construct p src with
  | .error _ => none
  | .ok (r, src1) =>
    match r.awaitGetBuffer src1 with
    | .error _ => none
    | .ok (b, _, _) => some b

/-- Fixture: a source handle with `modified = false`. -/
def wSrc : SourceState := { modified := false }

/-- Fixture: a well-behaved stream emitting two chunks then ending. -/
def wStream : JStream := { chunks := [[104], [105]], ok := true }

/-- Fixture: a stream that emits one chunk and then errors. -/
def wErrStream : JStream := { chunks := [[1]], ok := false, err := "boom" }

/-- Fixture: a buffer-backed resource. -/
def wBufRes : Resource :=
  ((construct { path := some "/w", buffer := some [9, 8] } wSrc).toOption.get (by decide)).1

/-- Fixture: a (plain-)stream-backed resource. -/
def wStreamRes : Resource :=
  ((construct { path := some "/w", stream := some wStream } wSrc).toOption.get (by decide)).1

/-- Fixture: a stream-backed resource with the source handle attached. -/
def wSrcRes : Resource :=
  ((construct { path := some "/w", stream := some wStream, source := true } wSrc).toOption.get
    (by decide)).1

/-- Fixture: the buffer-backed resource after `getStream()` was called. -/
def wDrained : Resource := (wBufRes.getStream.toOption.get (by decide)).2

/-- Fixture: a resource backed by the erroring stream. -/
def wErrRes : Resource :=
  ((construct { path := some "/e", stream := some wErrStream } wSrc).toOption.get (by decide)).1

/-- Fixture: `wErrRes` after the failed drain settled. -/
def wErrAfter : Resource := ((wErrRes._getBufferFromStream).1.settle wSrc).1

/-- Fixture: `wErrAfter` after new stream content was set. -/
def wErrReset : Resource := (wErrAfter.setStream wSrc (.stream wStream)).1

/-- Fixture: a project named alpha (default JavaScript string coercion). -/
def projAlpha : Project := { name := "alpha" }

/-- Fixture: a project named beta (default JavaScript string coercion). -/
def projBeta : Project := { name := "beta" }

/-- Fixture: a resource constructed with project alpha attached. -/
def wProjRes : Resource :=
  ((construct { path := some "/x", project := some projAlpha } wSrc).toOption.get (by decide)).1

/-- Fixture: a buffer-backed resource with the source handle attached. -/
def wBufSrcRes : Resource :=
  ((construct { path := some "/w", buffer := some [7], source := true } wSrc).toOption.get
    (by decide)).1

/-- Helper: a successful `getStream()` always leaves the resource flagged
content-drained (src/lib/Resource.js line 203). -/
theorem getStream_ok_contentDrained {r r' : Resource} {s : JStream}
    (h : r.getStream = .ok (s, r')) : r'._contentDrained = true := by
  unfold Resource.getStream at h
  split at h
  · cases h
  · split at h
    · cases h
      rfl
    · split at h
      · split at h
        · cases h
        · cases h
          rfl
      · cases h

/-- Helper: a content-drained resource rejects `getBuffer`. -/
theorem getBuffer_of_drained {r : Resource} (h : r._contentDrained = true) :
    r.getBuffer = .error (drainedMessage r._path) := by
  unfold Resource.getBuffer
  simp [h]

/-- Helper: a content-drained resource rejects `getString`. -/
theorem getString_of_drained {r : Resource} (h : r._contentDrained = true) :
    r.getString = .error (drainedMessage r._path) := by
  unfold Resource.getString
  simp [h]

/-- Helper: a content-drained resource rejects `getStream`. -/
theorem getStream_of_drained {r : Resource} (h : r._contentDrained = true) :
    r.getStream = .error (drainedMessage r._path) := by
  unfold Resource.getStream
  simp [h]

/-- C1: once `getStream()` has returned a stream view, every subsequent
`getBuffer()`, `getString()` or `getStream()` call fails with the
ContentDrained error; after a `setBuffer`, `setString` or `setStream`
call the drained flags are reset and `getStream()` succeeds again. -/
theorem c1_content_drained_after_getStream (r r' : Resource) (s : JStream)
    (src : SourceState) (b : Buffer) (str : String) (arg : StreamArg)
    (h : r.getStream = .ok (s, r')) :
    r'.getBuffer = .error (drainedMessage r'._path) ∧
    r'.getString = .error (drainedMessage r'._path) ∧
    r'.getStream = .error (drainedMessage r'._path) ∧
    (((r'.setBuffer src b).1).getStream).isOk = true ∧
    (((r'.setString src str).1).getStream).isOk = true ∧
    (((r'.setStream src arg).1).getStream).isOk = true := by
  have hd := getStream_ok_contentDrained h
  refine ⟨getBuffer_of_drained hd, getString_of_drained hd, getStream_of_drained hd, ?_, ?_, ?_⟩
  · rfl
  · rfl
  · cases arg <;> rfl

/-- C1 witness: the theorem at a concrete buffer-backed resource whose
stream view has been handed out. -/
theorem c1_witness :
    wDrained.getBuffer = .error (drainedMessage wDrained._path) ∧
    wDrained.getString = .error (drainedMessage wDrained._path) ∧
    wDrained.getStream = .error (drainedMessage wDrained._path) ∧
    (((wDrained.setBuffer wSrc [1]).1).getStream).isOk = true ∧
    (((wDrained.setString wSrc "x").1).getStream).isOk = true ∧
    (((wDrained.setStream wSrc (.stream wStream)).1).getStream).isOk = true :=
  c1_content_drained_after_getStream wBufRes wDrained { chunks := [[9, 8]], ok := true }
    wSrc [1] "x" (.stream wStream) (by decide)

/-- C2: on a stream-backed resource with a materialization in flight, a
further `getBuffer()` call returns the very same pending promise and
leaves the state untouched (the underlying stream is pulled from exactly
once), and the single settlement resolves that one shared promise with
the concatenation of all chunks — so every caller observes byte-identical
content. -/
theorem c2_buffering_dedup (r : Resource) (cs : JStream) (src : SourceState)
    (hs : r._stream = some cs) (hb : r._buffer = none) (hc : r._createStream = none)
    (hd : r._contentDrained = false) (hsd : r._streamDrained = false)
    (hbg : r._buffering = none) (hok : cs.ok = true) :
    r.getBuffer = .ok (.viaPromise (.pending r.nextId cs), attachedPending r cs) ∧
    (attachedPending r cs).getBuffer =
      .ok (.viaPromise (.pending r.nextId cs), attachedPending r cs) ∧
    (attachedPending r cs).settle src =
      (materialized r cs, src, some (r.nextId, .ok cs.chunks.flatten)) := by
  refine ⟨?_, ?_, ?_⟩
  · unfold Resource.getBuffer Resource._getBufferFromStream Resource._getStream
    simp [hs, hb, hc, hd, hsd, hbg, attachedPending]
  · unfold Resource.getBuffer Resource._getBufferFromStream
    simp [attachedPending, hb, hs, hd]
  · obtain ⟨m⟩ := src
    unfold Resource.settle Resource.setBuffer
    by_cases hso : r.hasSource = true <;> cases m <;>
      simp [attachedPending, materialized, hok, hso]

/-- C2 witness: the theorem at a concrete stream-backed resource. -/
theorem c2_witness :
    wStreamRes.getBuffer =
      .ok (.viaPromise (.pending wStreamRes.nextId wStream), attachedPending wStreamRes wStream) ∧
    (attachedPending wStreamRes wStream).getBuffer =
      .ok (.viaPromise (.pending wStreamRes.nextId wStream), attachedPending wStreamRes wStream) ∧
    (attachedPending wStreamRes wStream).settle wSrc =
      (materialized wStreamRes wStream, wSrc,
        some (wStreamRes.nextId, .ok wStream.chunks.flatten)) :=
  c2_buffering_dedup wStreamRes wStream wSrc (by decide) (by decide) (by decide) (by decide)
    (by decide) (by decide) (by decide)

/-- C3: for each single-content-parameter construction, the first
`await getBuffer()` resolves with bytes equal to the supplied content:
the buffer itself, the UTF-8 encoding of the string, or the
concatenation of all chunks of the stream, resp. of one factory
invocation. -/
theorem c3_first_read_equals_content (path : String) (hp : path ≠ "") (src : SourceState)
    (b : Buffer) (s : String) (cs f : JStream) (hok : cs.ok = true) (hfok : f.ok = true) :
    constructThenAwaitBuffer { path := some path, buffer := some b } src = some b ∧
    constructThenAwaitBuffer { path := some path, string := some s } src = some (utf8Bytes s) ∧
    constructThenAwaitBuffer { path := some path, stream := some cs } src =
      some cs.chunks.flatten ∧
    constructThenAwaitBuffer { path := some path, createStream := some f } src =
      some f.chunks.flatten := by
  refine ⟨?_, ?_, ?_, ?_⟩ <;>
    simp [constructThenAwaitBuffer, construct, hp, jsTruthyString, Resource.setBuffer,
      Resource.setString, Resource.awaitGetBuffer, Resource.getBuffer,
      Resource._getBufferFromStream, Resource._getStream, Resource.awaitPromise,
      Resource.settle, hok, hfok]

/-- C3 witness: the theorem at concrete contents. -/
theorem c3_witness :
    constructThenAwaitBuffer { path := some "/w", buffer := some [9, 8] } wSrc = some [9, 8] ∧
    constructThenAwaitBuffer { path := some "/w", string := some "hi" } wSrc =
      some (utf8Bytes "hi") ∧
    constructThenAwaitBuffer { path := some "/w", stream := some wStream } wSrc =
      some wStream.chunks.flatten ∧
    constructThenAwaitBuffer { path := some "/w", createStream := some wStream } wSrc =
      some wStream.chunks.flatten :=
  c3_first_read_equals_content "/w" (by decide) wSrc [9, 8] "hi" wStream wStream (by decide)
    (by decide)

/-- C4 counterexample: at a concrete resource backed by an erroring
stream, after the failed drain the `_buffering` token is NOT cleared
(it still holds the rejected promise), and after new content is set via
`setStream` a `getBuffer()` call does not restart cleanly: it returns the
stale rejected promise even though a fresh, intact stream is installed. -/
theorem c4_counterexample :
    wErrAfter._buffering = some (.rejected 0 "boom") ∧
    wErrReset._stream = some wStream ∧
    wErrReset.getBuffer = .ok (.viaPromise (.rejected 0 "boom"), wErrReset) := by
  decide

/-- C4 amended: if the underlying stream signals an error during
materialization, the pending buffering token is rejected but left in
place (not cleared), and no partial buffer is installed; a subsequent
`getBuffer()` — even after new content is explicitly set via `setStream`
— returns the stale rejected token instead of restarting the drain. -/
theorem c4_error_leaves_stale_token (r : Resource) (cs ns : JStream) (src s2 : SourceState)
    (hs : r._stream = some cs) (hb : r._buffer = none) (hc : r._createStream = none)
    (hd : r._contentDrained = false) (hsd : r._streamDrained = false)
    (hbg : r._buffering = none) (herr : cs.ok = false) :
    r.getBuffer = .ok (.viaPromise (.pending r.nextId cs), attachedPending r cs) ∧
    (attachedPending r cs).settle src =
      (rejectedStuck r cs, src, some (r.nextId, .error cs.err)) ∧
    (rejectedStuck r cs)._buffer = none ∧
    (rejectedStuck r cs)._buffering = some (.rejected r.nextId cs.err) ∧
    ((rejectedStuck r cs).setStream s2 (.stream ns)).1.getBuffer =
      .ok (.viaPromise (.rejected r.nextId cs.err),
        ((rejectedStuck r cs).setStream s2 (.stream ns)).1) := by
  refine ⟨?_, ?_, ?_, ?_, ?_⟩
  · unfold Resource.getBuffer Resource._getBufferFromStream Resource._getStream
    simp [hs, hb, hc, hd, hsd, hbg, attachedPending]
  · unfold Resource.settle
    simp [attachedPending, rejectedStuck, herr]
  · exact hb
  · rfl
  · unfold Resource.getBuffer Resource.setStream Resource._getBufferFromStream
    simp [rejectedStuck, hb]

/-- C4 witness: the amended theorem at the concrete erroring stream. -/
theorem c4_witness :
    wErrRes.getBuffer =
      .ok (.viaPromise (.pending wErrRes.nextId wErrStream), attachedPending wErrRes wErrStream) ∧
    (attachedPending wErrRes wErrStream).settle wSrc =
      (rejectedStuck wErrRes wErrStream, wSrc, some (wErrRes.nextId, .error wErrStream.err)) ∧
    (rejectedStuck wErrRes wErrStream)._buffer = none ∧
    (rejectedStuck wErrRes wErrStream)._buffering =
      some (.rejected wErrRes.nextId wErrStream.err) ∧
    ((rejectedStuck wErrRes wErrStream).setStream wSrc (.stream wStream)).1.getBuffer =
      .ok (.viaPromise (.rejected wErrRes.nextId wErrStream.err),
        ((rejectedStuck wErrRes wErrStream).setStream wSrc (.stream wStream)).1) :=
  c4_error_leaves_stale_token wErrRes wErrStream wStream wSrc wSrc (by decide) (by decide)
    (by decide) (by decide) (by decide) (by decide) (by decide)

/-- Helper: whenever at least two of the four flags are set, the
constructor's pairwise conflict disjunction is true. -/
theorem two_of_four (a b c d : Bool)
    (h : 2 ≤ (if a then 1 else 0) + (if b then 1 else 0) + (if c then 1 else 0) +
      (if d then 1 else 0)) :
    (a && c || a && b || b && c || a && d || b && d || c && d) = true := by
  cases a <;> cases b <;> cases c <;> cases d <;> simp_all

/-- C5 counterexample: constructing with ZERO content parameters
succeeds (the claim says it fails), and constructing with a buffer plus
an empty string also succeeds (an empty string is falsy in the conflict
check), so even "two or more content parameters" does not always fail
as stated. -/
theorem c5_counterexample :
    (construct { path := some "/a" } wSrc).isOk = true ∧
    (construct { path := some "/a", buffer := some [1], string := some "" } wSrc).isOk = true := by
  decide

/-- C5 amended: constructing with zero content parameters succeeds and
yields a contentless resource; constructing with two or more TRUTHY
content parameters among buffer, string, stream and createStream fails
(an empty string does not count); constructing with a missing or empty
path fails. -/
theorem c5_constructor_checks (p q : Params) (src : SourceState) (path : String)
    (hp : path ≠ "") (hpn : p.path ≠ none) (hpe : p.path ≠ some "")
    (h2 : 2 ≤ truthyContentCount p) (hq : q.path = none ∨ q.path = some "") :
    construct { path := some path } src =
      .ok ({ _path := path, _name := posixBasename path }, src) ∧
    construct p src = .error conflictMessage ∧
    construct q src = .error pathMissingMessage := by
  refine ⟨?_, ?_, ?_⟩
  · simp [construct, hp, jsTruthyString, defaultStatInfo]
  · cases hpo : p.path with
    | none => exact absurd hpo hpn
    | some pp =>
      have hppe : pp ≠ "" := by
        intro h
        exact hpe (h ▸ hpo)
      unfold truthyContentCount at h2
      have hconf := two_of_four p.buffer.isSome (jsTruthyString p.string)
        p.createStream.isSome p.stream.isSome h2
      unfold construct
      simp [hpo, hppe, hconf]
  · rcases hq with h | h <;> simp [construct, h]

/-- C5 witness: the amended theorem at concrete parameter objects. -/
theorem c5_witness :
    construct { path := some "/a" } wSrc =
      .ok ({ _path := "/a", _name := posixBasename "/a" }, wSrc) ∧
    construct { path := some "/a", buffer := some [1], string := some "x" } wSrc =
      .error conflictMessage ∧
    construct { path := none } wSrc = .error pathMissingMessage :=
  c5_constructor_checks { path := some "/a", buffer := some [1], string := some "x" }
    { path := none } wSrc "/a" (by decide) (by decide) (by decide) (by decide) (Or.inl rfl)

/-- C6: `clone()` of a stream-backed resource yields an independent
resource with the same path, the same stat-info value (the deep
duplicate is indistinguishable from the original in the pure model), the
same shared source handle, no project and no collections; the clone's
`getBuffer()` succeeds with the full content even though the original's
stream has been consumed (the original ends up materialized, its
`_stream` gone). -/
theorem c6_clone_independent (r : Resource) (src : SourceState) (cs : JStream)
    (hp : r._path ≠ "") (hs : r._stream = some cs) (hb : r._buffer = none)
    (hc : r._createStream = none) (hsd : r._streamDrained = false)
    (hbg : r._buffering = none) (hok : cs.ok = true) :
    r.clone src = .ok (cloneOf r cs.chunks.flatten, materialized r cs,
      if r.hasSource then { modified := true } else src) ∧
    (cloneOf r cs.chunks.flatten)._path = r._path ∧
    (cloneOf r cs.chunks.flatten)._statInfo = r._statInfo ∧
    (cloneOf r cs.chunks.flatten).hasSource = r.hasSource ∧
    (cloneOf r cs.chunks.flatten).__project = none ∧
    (cloneOf r cs.chunks.flatten)._collections = [] ∧
    (cloneOf r cs.chunks.flatten).getBuffer =
      .ok (.resolved cs.chunks.flatten, cloneOf r cs.chunks.flatten) ∧
    (materialized r cs)._stream = none ∧
    (materialized r cs)._buffer = some cs.chunks.flatten := by
  refine ⟨?_, rfl, rfl, rfl, rfl, rfl, rfl, rfl, rfl⟩
  unfold Resource.clone Resource._getCloneOptions Resource._getBufferFromStream
    Resource._getStream Resource.awaitPromise Resource.settle construct Resource.setBuffer
  obtain ⟨m⟩ := src
  by_cases hso : r.hasSource = true <;> cases m <;>
    simp [hs, hb, hc, hsd, hbg, hok, hp, hso, jsTruthyString, cloneOf, materialized]

/-- C6 witness: the theorem at the concrete stream-backed resource. -/
theorem c6_witness :
    wStreamRes.clone wSrc = .ok (cloneOf wStreamRes wStream.chunks.flatten,
      materialized wStreamRes wStream,
      if wStreamRes.hasSource then { modified := true } else wSrc) ∧
    (cloneOf wStreamRes wStream.chunks.flatten)._path = wStreamRes._path ∧
    (cloneOf wStreamRes wStream.chunks.flatten)._statInfo = wStreamRes._statInfo ∧
    (cloneOf wStreamRes wStream.chunks.flatten).hasSource = wStreamRes.hasSource ∧
    (cloneOf wStreamRes wStream.chunks.flatten).__project = none ∧
    (cloneOf wStreamRes wStream.chunks.flatten)._collections = [] ∧
    (cloneOf wStreamRes wStream.chunks.flatten).getBuffer =
      .ok (.resolved wStream.chunks.flatten, cloneOf wStreamRes wStream.chunks.flatten) ∧
    (materialized wStreamRes wStream)._stream = none ∧
    (materialized wStreamRes wStream)._buffer = some wStream.chunks.flatten :=
  c6_clone_independent wStreamRes wSrc wStream (by decide) (by decide) (by decide) (by decide)
    (by decide) (by decide) (by decide)

/-- C7: on a resource with an attached source handle whose `modified`
flag is false, a read that triggers lazy stream-to-buffer
materialization hands back the source state unchanged (`modified` still
false: the flag is snapshotted around the internal `setBuffer`), while
an explicit `setBuffer` call sets `modified` to true. -/
theorem c7_materialization_invisible_to_modified (r : Resource) (src : SourceState)
    (cs : JStream) (b : Buffer) (hsrc : r.hasSource = true) (hmod : src.modified = false)
    (hs : r._stream = some cs) (hb : r._buffer = none) (hc : r._createStream = none)
    (hd : r._contentDrained = false) (hsd : r._streamDrained = false)
    (hbg : r._buffering = none) (hok : cs.ok = true) :
    r.awaitGetBuffer src = .ok (cs.chunks.flatten, materialized r cs, src) ∧
    (r.setBuffer src b).2 = { modified := true } := by
  constructor
  · unfold Resource.awaitGetBuffer Resource.getBuffer Resource._getBufferFromStream
      Resource._getStream Resource.awaitPromise Resource.settle Resource.setBuffer
    obtain ⟨m⟩ := src
    cases m
    · simp [hs, hb, hc, hd, hsd, hbg, hok, hsrc, materialized]
    · exact absurd hmod (by decide)
  · unfold Resource.setBuffer
    simp [hsrc, hmod]

/-- C7 witness: the theorem at the concrete stream-backed resource with
source handle attached. -/
theorem c7_witness :
    wSrcRes.awaitGetBuffer wSrc =
      .ok (wStream.chunks.flatten, materialized wSrcRes wStream, wSrc) ∧
    (wSrcRes.setBuffer wSrc [1]).2 = { modified := true } :=
  c7_materialization_invisible_to_modified wSrcRes wSrc wStream [1] (by decide) (by decide)
    (by decide) (by decide) (by decide) (by decide) (by decide) (by decide) (by decide)

/-- C8 counterexample: at a concrete resource whose attached project is
named alpha (with the default JavaScript object-to-string coercion), the
failure message of `setProject` contains the attempted project's name
beta but does NOT contain the existing project's name alpha — it
interpolates the raw object as `[object Object]` — so the message does
not identify both projects by name as claimed. -/
theorem c8_counterexample :
    wProjRes.setProject projBeta =
      .error (projectAssignedMessage "beta" "/x" "[object Object]") ∧
    strContainsSub (projectAssignedMessage "beta" "/x" "[object Object]") "beta" = true ∧
    strContainsSub (projectAssignedMessage "beta" "/x" "[object Object]") "alpha" = false := by
  decide

/-- C8 amended: `setProject` on a resource that already has a project
fails, and the failure message names the attempted project but
interpolates the existing project object's string representation (not
necessarily its name); `setProject` on a resource without a project
succeeds, after which `hasProject` returns true. -/
theorem c8_project_assignment (r r2 : Resource) (q ex : Project)
    (hex : r.__project = some ex) (hnone : r2.__project = none) :
    r.setProject q = .error (projectAssignedMessage q.name r._path ex.jsStringRep) ∧
    r2.setProject q = .ok { r2 with __project := some q } ∧
    ({ r2 with __project := some q }).hasProject = true := by
  refine ⟨?_, ?_, rfl⟩
  · unfold Resource.setProject
    simp [hex, Project.getName]
  · unfold Resource.setProject
    simp [hnone]

/-- C8 witness: the amended theorem at concrete projects. -/
theorem c8_witness :
    wProjRes.setProject projBeta =
      .error (projectAssignedMessage projBeta.name wProjRes._path projAlpha.jsStringRep) ∧
    wBufRes.setProject projBeta = .ok { wBufRes with __project := some projBeta } ∧
    ({ wBufRes with __project := some projBeta }).hasProject = true :=
  c8_project_assignment wProjRes wBufRes projBeta projAlpha (by decide) (by decide)

/-- C9: `getSize()` returns 0 without failing when no content source is
held; on a buffer-backed resource it returns the byte length of the
buffer; on a stream-backed resource it returns the byte length of the
materialized buffer and leaves the resource materialized as a side
effect. -/
theorem c9_getSize (r0 r1 r2 : Resource) (src : SourceState) (b : Buffer) (cs : JStream)
    (h01 : r0._buffer = none) (h02 : r0._createStream = none) (h03 : r0._stream = none)
    (h11 : r1._buffer = some b) (h12 : r1._contentDrained = false)
    (h21 : r2._stream = some cs) (h22 : r2._buffer = none) (h23 : r2._createStream = none)
    (h24 : r2._contentDrained = false) (h25 : r2._streamDrained = false)
    (h26 : r2._buffering = none) (hok : cs.ok = true) :
    r0.getSize src = .ok (0, r0, src) ∧
    r1.getSize src = .ok (b.length, r1, src) ∧
    r2.getSize src = .ok (cs.chunks.flatten.length, materialized r2 cs, src) := by
  refine ⟨?_, ?_, ?_⟩
  · unfold Resource.getSize
    simp [h01, h02, h03]
  · unfold Resource.getSize Resource.awaitGetBuffer Resource.getBuffer
    simp [h11, h12]
  · unfold Resource.getSize Resource.awaitGetBuffer Resource.getBuffer
      Resource._getBufferFromStream Resource._getStream Resource.awaitPromise
      Resource.settle Resource.setBuffer
    obtain ⟨m⟩ := src
    by_cases hso : r2.hasSource = true <;> cases m <;>
      simp [h21, h22, h23, h24, h25, h26, hok, hso, materialized]

/-- C9 witness: the theorem at a contentless, a buffer-backed and a
stream-backed concrete resource. -/
theorem c9_witness :
    ({ _path := "/z", _name := "z" } : Resource).getSize wSrc =
      .ok (0, { _path := "/z", _name := "z" }, wSrc) ∧
    wBufRes.getSize wSrc = .ok (([9, 8] : Buffer).length, wBufRes, wSrc) ∧
    wStreamRes.getSize wSrc =
      .ok (wStream.chunks.flatten.length, materialized wStreamRes wStream, wSrc) :=
  c9_getSize { _path := "/z", _name := "z" } wBufRes wStreamRes wSrc [9, 8] wStream
    (by decide) (by decide) (by decide) (by decide) (by decide) (by decide) (by decide)
    (by decide) (by decide) (by decide) (by decide) (by decide)

/-- C10: a construction with the source handle attached first sets
`source.modified` to false (observable when the content is a stream); if
a buffer or string content parameter is supplied, the constructor's
internal `setBuffer`/`setString` then flips it to true, so a freshly
constructed buffer- or string-backed resource with a source reports
`modified = true`; and since `clone()` passes the original's source
handle to the new constructor, cloning a buffer-backed resource mutates
the shared flag to true as well, whatever it was before. -/
theorem c10_constructor_sets_modified (path : String) (hp : path ≠ "") (src : SourceState)
    (b : Buffer) (s : String) (cs : JStream) (r : Resource)
    (hb2 : r._buffer = some b) (hs2 : r._stream = none) (hc2 : r._createStream = none)
    (hsrc : r.hasSource = true) (hp2 : r._path ≠ "") :
    construct { path := some path, source := true, stream := some cs } src =
      .ok ({ _path := path, _name := posixBasename path, hasSource := true,
             _stream := some cs }, { modified := false }) ∧
    construct { path := some path, source := true, buffer := some b } src =
      .ok ({ _path := path, _name := posixBasename path, hasSource := true,
             _buffer := some b }, { modified := true }) ∧
    construct { path := some path, source := true, string := some s } src =
      .ok ({ _path := path, _name := posixBasename path, hasSource := true,
             _buffer := some (utf8Bytes s) }, { modified := true }) ∧
    r.clone src = .ok (cloneOf r b, r, { modified := true }) := by
  refine ⟨?_, ?_, ?_, ?_⟩
  · simp [construct, hp, jsTruthyString, defaultStatInfo]
  · simp [construct, hp, jsTruthyString, defaultStatInfo, Resource.setBuffer]
  · simp [construct, hp, jsTruthyString, defaultStatInfo, Resource.setString,
      Resource.setBuffer]
  · unfold Resource.clone Resource._getCloneOptions construct Resource.setBuffer
    simp [hb2, hs2, hc2, hsrc, hp2, jsTruthyString, cloneOf]

/-- C10 witness: the theorem at concrete contents and a concrete
buffer-backed resource with the source handle attached. -/
theorem c10_witness :
    construct { path := some "/a", source := true, stream := some wStream } wSrc =
      .ok ({ _path := "/a", _name := posixBasename "/a", hasSource := true,
             _stream := some wStream }, { modified := false }) ∧
    construct { path := some "/a", source := true, buffer := some [7] } wSrc =
      .ok ({ _path := "/a", _name := posixBasename "/a", hasSource := true,
             _buffer := some [7] }, { modified := true }) ∧
    construct { path := some "/a", source := true, string := some "hi" } wSrc =
      .ok ({ _path := "/a", _name := posixBasename "/a", hasSource := true,
             _buffer := some (utf8Bytes "hi") }, { modified := true }) ∧
    wBufSrcRes.clone wSrc = .ok (cloneOf wBufSrcRes [7], wBufSrcRes, { modified := true }) :=
  c10_constructor_sets_modified "/a" (by decide) wSrc [7] "hi" wStream wBufSrcRes (by decide)
    (by decide) (by decide) (by decide) (by decide)
